import Mathlib

/-!
Verification of the request-execution pipeline of the opsgenie-go-sdk-v2
client package.  The repository ships the package's test file
(`src/client/client_test.go`); the implementation file `client.go` /
`metric.go` is not part of the sources, so the pipeline itself is modelled
from the specification (sections 3, 4, 6, 7 of spec.md), with every
behaviour that the test file asserts pinned to the tests.  Concrete request
and result types (`testRequest`, `Team`, `Log`, the result structs) are
translated directly from `client_test.go`.
-/

namespace OpsgenieSdk

/-- JSON values, as needed for the response-envelope model.  Numbers are
modelled as rationals (`took` values such as `1.08`). -/
inductive Jval where
  | str : String → Jval
  | num : Rat → Jval
  | arr : List Jval → Jval
  | obj : List (String × Jval) → Jval

/-- A top-level JSON object body: ordered key/value pairs. -/
abbrev JObj := List (String × Jval)

/-- String field of a JSON object, empty when absent or not a string. -/
def lookupStr (o : JObj) (k : String) : String :=
  match o.lookup k with
  | some (Jval.str s) => s
  | _ => ""

/-- Numeric field of a JSON object, `0` when absent or not a number. -/
def lookupNum (o : JObj) (k : String) : Rat :=
  match o.lookup k with
  | some (Jval.num q) => q
  | _ => 0

/-- The `errors` member of a response body as a field-name/message map
(only string-valued entries, as in the wire format). -/
def lookupErrors (o : JObj) : List (String × String) :=
  match o.lookup "errors" with
  | some (Jval.obj kvs) =>
      kvs.filterMap fun kv =>
        match kv.2 with
        | Jval.str s => some (kv.1, s)
        | _ => none
  | _ => []

/-- Modelled from the spec: one HTTP response as seen by the pipeline
(status line, headers, and the body, which is either a parsed top-level
JSON object or a parse-failure cause for malformed JSON).  `client.go`,
which consumes `net/http` responses, is not under `src/`. -/
structure HttpResponse where
  statusCode : Nat
  status : String
  headers : List (String × String)
  body : Except String JObj

/-- First value of a response header, empty when the header is absent. -/
def headerValue (headers : List (String × String)) (name : String) : String :=
  (headers.lookup name).getD ""

/-- ResultMetadata record embedded in every Result (spec section 3 and the
field names asserted in `client_test.go`: `RequestId`, `ResponseTime`,
`RateLimitState`, `RateLimitReason`, `RateLimitPeriod`, `RetryCount`). -/
structure ResultMetadata where
  RequestId : String
  ResponseTime : Rat
  RateLimitState : String
  RateLimitReason : String
  RateLimitPeriod : String
  RetryCount : Nat
deriving DecidableEq

/-- HttpMetric value object (spec section 3; field names from the
expectations in `TestHttpMetric`). -/
structure HttpMetric where
  ResourcePath : String
  Status : String
  StatusCode : Nat
  RetryCount : Nat
  Error : Option String
deriving DecidableEq

/-- ApiMetric value object (spec section 3; `TestApiMetric`). -/
structure ApiMetric where
  ResourcePath : String
  Metadata : ResultMetadata
deriving DecidableEq

/-- SdkMetric value object (spec section 3;
`TestSdkMetricWhenRequestIsNotValid`). -/
structure SdkMetric where
  ResourcePath : String
  ErrorType : String
  ErrorMessage : String
deriving DecidableEq

/-- Client configuration surface used by the core (spec section 6). -/
structure Config where
  ApiKey : String
  RetryCount : Nat
deriving DecidableEq

/-- The constructed client.  Only the configuration matters to the model. -/
structure OpsGenieClient where
  config : Config
deriving DecidableEq

/-- Modelled from the spec: client construction.  A blank API key is a
configuration error, fatal before any call (spec sections 6 and 7); the
error text is pinned by `client_test.go` line 70
(`"API key cannot be blank"`).  `NewOpsGenieClient` itself lives in the
absent `client.go`. -/
def NewOpsGenieClient (cfg : Config) : Except String OpsGenieClient :=
  if cfg.ApiKey = "" then Except.error "API key cannot be blank"
  else Except.ok { config := cfg }

/-- The Request capability contract (spec section 6): resource path, HTTP
method, and the outcome of self-validation (`none` when `Validate()`
returns nil, `some msg` for a validation error with text `msg`). -/
structure ApiRequest where
  ResourcePath : String
  Method : String
  validationError : Option String
deriving DecidableEq

/-- `testRequest` from `client_test.go`: the concrete request type used by
every test. -/
structure testRequest where
  MandatoryField : String
  ExtraField : String
deriving DecidableEq

/-- `testRequest.Validate` from `client_test.go` lines 175-181. -/
def testRequest.Validate (tr : testRequest) : Option String :=
  if tr.MandatoryField = "" then some "mandatory field cannot be empty"
  else none

/-- `testRequest.ResourcePath` from `client_test.go` lines 183-185. -/
def testRequest.ResourcePath (_ : testRequest) : String :=
  "/an-enpoint"

/-- `testRequest.Method` from `client_test.go` lines 187-189. -/
def testRequest.Method (_ : testRequest) : String :=
  "POST"

/-- View of `testRequest` through the Request capability contract. -/
def testRequest.toApi (tr : testRequest) : ApiRequest :=
  { ResourcePath := tr.ResourcePath
    Method := tr.Method
    validationError := tr.Validate }

/-- Modelled from the spec (section 4.3): retry triggers are status 429 or
any 5xx status. -/
def isRetryStatus (code : Nat) : Bool :=
  code == 429 || (500 ≤ code && code ≤ 599)

/-- Modelled from the spec (section 4.3): a transport failure (no response)
or a retry-triggering status asks for a retry. -/
def shouldRetry : Option HttpResponse → Bool
  | none => true
  | some r => isRetryStatus r.statusCode

/-- Modelled from the spec (sections 4.1.3 and 4.3): the bounded attempt
loop of the absent `client.go`.  `server i` is the outcome of the i-th
HTTP attempt (`none` = transport failure).  Returns the final outcome, the
number of attempts performed, and the retry counter.  The counter
increments once per retry-triggering attempt outcome, including the final
attempt: this is pinned by the tests, which observe `RetryCount = 0` on a
first-attempt success (`TestHttpMetric`) and `RetryCount = 2` with a
configured retry count of 1 against a persistent 504
(`TestHttpMetricWhenRequestRetried`, `TestApiMetric`). -/
def attemptLoop (server : Nat → Option HttpResponse) :
    Nat → Nat → Nat → Option HttpResponse × Nat × Nat
  | fuel, i, cnt =>
    let o := server i
    let cnt' := if shouldRetry o then cnt + 1 else cnt
    match fuel with
    | 0 => (o, i + 1, cnt')
    | Nat.succ fuel' =>
        if shouldRetry o then attemptLoop server fuel' (i + 1) cnt'
        else (o, i + 1, cnt')

/-- The envelope's own reserved top-level keys (spec sections 3 and 6). -/
def reservedKeys : List String :=
  ["data", "took", "requestId", "message", "errors"]

/-- Modelled from the spec (section 4.2, pinned by the parsing tests): the
field assignments offered to the Result's own (non-metadata) fields.  When
the Result type declares a data-receiving field, the `data` member is
routed to that field and nothing else (`TestParsingWithDataField`).  When
it does not: an object-shaped `data` member has its sub-fields mapped onto
the Result's fields (`TestParsingWithoutDataField`); otherwise the
non-reserved top-level keys are mapped onto the Result's fields by name
(`TestParsingWhenApiDoesNotReturnDataField`). -/
def resultFields (hasDataField : Bool) (body : JObj) : JObj :=
  if hasDataField then
    match body.lookup "data" with
    | some d => [("data", d)]
    | none => []
  else
    match body.lookup "data" with
    | some (Jval.obj kvs) => kvs
    | _ => body.filter fun kv => !(reservedKeys.contains kv.1)

/-- Modelled from the spec (sections 3 and 4.2): ResultMetadata assembled
after a completed HTTP exchange — `requestId` and `took` from the body,
rate-limit facts from the response headers, and the call's retry counter. -/
def metadataOf (resp : HttpResponse) (retryCnt : Nat) : ResultMetadata :=
  let body := match resp.body with
    | Except.ok o => o
    | Except.error _ => []
  { RequestId := lookupStr body "requestId"
    ResponseTime := lookupNum body "took"
    RateLimitState := headerValue resp.headers "X-RateLimit-State"
    RateLimitReason := headerValue resp.headers "X-RateLimit-Reason"
    RateLimitPeriod := headerValue resp.headers "X-RateLimit-Period-In-Sec"
    RetryCount := retryCnt }

/-- The all-empty metadata of a freshly allocated result value. -/
def emptyMetadata : ResultMetadata :=
  { RequestId := ""
    ResponseTime := 0
    RateLimitState := ""
    RateLimitReason := ""
    RateLimitPeriod := ""
    RetryCount := 0 }

/-- Rendering of the field-level `errors` map inside an API error text. -/
def errorsDetail : List (String × String) → String
  | [] => ""
  | kv :: rest => kv.1 ++ ": " ++ kv.2 ++ ", " ++ errorsDetail rest

/-- Modelled from the spec (sections 4.4 and 7): the user-visible text of a
non-2xx API error — status code, message and requestId always, field-level
detail when the `errors` map is non-empty (`TestExecWhenApiReturns422`
asserts the text contains the status code and the field detail;
`TestExecWhenApiReturnsRateLimitingDetails` asserts it contains the
requestId). -/
def apiErrorText (statusCode : Nat) (body : JObj) : String :=
  let base := "Error occurred with Status code: " ++ toString statusCode ++
    ", Message: " ++ lookupStr body "message" ++
    ", RequestId: " ++ lookupStr body "requestId"
  let errs := lookupErrors body
  if errs.isEmpty then base
  else base ++ ", Error detail: " ++ errorsDetail errs

/-- What decoding writes into the caller's result: the metadata record and
the field assignments for the result's own fields. -/
structure DecodedResult where
  metadata : ResultMetadata
  fields : JObj

/-- Every observable of one `Exec` call: the returned error, the number of
HTTP calls performed, and the published metrics (spec section 4.1.6:
HttpMetric and ApiMetric only when an HTTP exchange occurred, SdkMetric
always). -/
structure ExecOutcome where
  error : Option String
  attempts : Nat
  httpMetric : Option HttpMetric
  apiMetric : Option ApiMetric
  sdkMetric : SdkMetric
  result : DecodedResult

/-- Modelled from the spec (section 4.1): the request-execution pipeline of
the absent `client.go`.  `hasDataField` is the caller's Result type
descriptor (spec section 9: the data-receiving-field tag, made explicit);
`server i` is the outcome of the i-th HTTP attempt.  Validation failure
short-circuits with zero HTTP calls and a `request-validation-error`
SdkMetric; otherwise the bounded retry loop runs, the final response is
classified (2xx → decode, anything else → API error text), metadata is
always populated from the final exchange, and a malformed 2xx body yields
the parse error pinned by `TestParsingErrorExec`
(`"Response could not be parsed, <cause>"`). -/
def Exec (cfg : Config) (req : ApiRequest) (hasDataField : Bool)
    (server : Nat → Option HttpResponse) : ExecOutcome :=
  match req.validationError with
  | some msg =>
    { error := some msg
      attempts := 0
      httpMetric := none
      apiMetric := none
      sdkMetric :=
        { ResourcePath := req.ResourcePath
          ErrorType := "request-validation-error"
          ErrorMessage := msg }
      result := { metadata := emptyMetadata, fields := [] } }
  | none =>
    let t := attemptLoop server cfg.RetryCount 0 0
    match t.1 with
    | none =>
      { error := some "transport error"
        attempts := t.2.1
        httpMetric := some
          { ResourcePath := req.ResourcePath
            Status := ""
            StatusCode := 0
            RetryCount := t.2.2
            Error := some "transport error" }
        apiMetric := none
        sdkMetric :=
          { ResourcePath := req.ResourcePath
            ErrorType := ""
            ErrorMessage := "transport error" }
        result := { metadata := emptyMetadata, fields := [] } }
    | some resp =>
      let md := metadataOf resp t.2.2
      let hm : HttpMetric :=
        { ResourcePath := req.ResourcePath
          Status := resp.status
          StatusCode := resp.statusCode
          RetryCount := t.2.2
          Error := none }
      let am : ApiMetric := { ResourcePath := req.ResourcePath, Metadata := md }
      if 200 ≤ resp.statusCode ∧ resp.statusCode ≤ 299 then
        match resp.body with
        | Except.error cause =>
          { error := some ("Response could not be parsed, " ++ cause)
            attempts := t.2.1
            httpMetric := some hm
            apiMetric := some am
            sdkMetric :=
              { ResourcePath := req.ResourcePath
                ErrorType := ""
                ErrorMessage := "Response could not be parsed, " ++ cause }
            result := { metadata := md, fields := [] } }
        | Except.ok body =>
          { error := none
            attempts := t.2.1
            httpMetric := some hm
            apiMetric := some am
            sdkMetric :=
              { ResourcePath := req.ResourcePath
                ErrorType := ""
                ErrorMessage := "" }
            result := { metadata := md, fields := resultFields hasDataField body } }
      else
        let body := match resp.body with
          | Except.ok o => o
          | Except.error _ => []
        { error := some (apiErrorText resp.statusCode body)
          attempts := t.2.1
          httpMetric := some hm
          apiMetric := some am
          sdkMetric :=
            { ResourcePath := req.ResourcePath
              ErrorType := ""
              ErrorMessage := apiErrorText resp.statusCode body }
          result := { metadata := md, fields := [] } }

/-- Metric category constant `HTTP` (`string(HTTP) = "http"` in the tests). -/
def HTTP : String := "http"

/-- Metric category constant `SDK`. -/
def SDK : String := "sdk"

/-- Metric category constant `API`. -/
def API : String := "api"

/-- Modelled from the spec (section 4.4): the metrics bus — a mapping from
category name to the ordered list of subscribers, insertion order
preserved, duplicates allowed.  The subscriber type is a parameter; the
tests use `MetricSubscriber` values carrying a processing function.
`metric.go`, which holds the bus, is not under `src/`. -/
structure MetricPublisher (σ : Type) where
  SubscriberMap : String → List σ

/-- The bus at process startup: no subscriber under any category. -/
def MetricPublisher.empty (σ : Type) : MetricPublisher σ :=
  { SubscriberMap := fun _ => [] }

/-- Modelled from the spec (section 4.4): `Register(subscriber, category)`
appends; no removal. -/
def MetricPublisher.register (p : MetricPublisher σ) (sub : σ) (cat : String) :
    MetricPublisher σ :=
  { SubscriberMap := fun c =>
      if c = cat then p.SubscriberMap c ++ [sub] else p.SubscriberMap c }

/-- The bus after a sequence of registrations, applied in order. -/
def registerAll (σ : Type) (regs : List (σ × String)) : MetricPublisher σ :=
  regs.foldl (fun p r => p.register r.1 r.2) (MetricPublisher.empty σ)

/-- Modelled from the spec (section 4.4): `Publish(category, metric)` calls
every subscriber registered under that category, synchronously, in
registration order; the subscribers reached by a publication are exactly
the category's list. -/
def publishTargets (p : MetricPublisher σ) (cat : String) : List σ :=
  p.SubscriberMap cat

/-- `Team` from `client_test.go` lines 13-17 (json tags id/name/description). -/
structure Team where
  Id : String
  Name : String
  Description : String
deriving DecidableEq

/-- Wire form of a `Team`, with its json tags as keys. -/
def Team.toJval (t : Team) : Jval :=
  Jval.obj [("id", Jval.str t.Id), ("name", Jval.str t.Name),
    ("description", Jval.str t.Description)]

/-- Decoding of one `data` array element into a `Team`. -/
def Team.ofJval : Jval → Team
  | Jval.obj kvs =>
      { Id := lookupStr kvs "id"
        Name := lookupStr kvs "name"
        Description := lookupStr kvs "description" }
  | _ => { Id := "", Name := "", Description := "" }

/-- `aResultWantsDataFieldsToBeParsed` from `client_test.go` lines 35-38:
embeds ResultMetadata and declares `Teams []Team` with json tag `data`. -/
structure aResultWantsDataFieldsToBeParsed where
  metadata : ResultMetadata
  Teams : List Team
deriving DecidableEq

/-- Materialisation of the decoded assignments into the concrete result
type with the data-receiving field (`Teams`, tag `data`). -/
def aResultWantsDataFieldsToBeParsed.ofDecoded (d : DecodedResult) :
    aResultWantsDataFieldsToBeParsed :=
  { metadata := d.metadata
    Teams :=
      match d.fields.lookup "data" with
      | some (Jval.arr xs) => xs.map Team.ofJval
      | _ => [] }

/-- `ResultWithoutDataField` from `client_test.go` lines 24-27: embeds
ResultMetadata and declares `Result string` with json tag `result`. -/
structure ResultWithoutDataField where
  metadata : ResultMetadata
  Result : String
deriving DecidableEq

/-- Materialisation of the decoded assignments into
`ResultWithoutDataField`. -/
def ResultWithoutDataField.ofDecoded (d : DecodedResult) : ResultWithoutDataField :=
  { metadata := d.metadata
    Result := lookupStr d.fields "result" }

/-- The configuration used by most tests: non-blank key, retry count 1. -/
def cfgKey1 : Config := { ApiKey := "apiKey", RetryCount := 1 }

/-- The valid concrete request of the tests
(`testRequest{MandatoryField: "afield", ExtraField: "extra"}`). -/
def reqValidApi : ApiRequest :=
  testRequest.toApi { MandatoryField := "afield", ExtraField := "extra" }

/-- The persistent 504 response of `TestHttpMetricWhenRequestRetried`
(its body, `{"message": "something went wrong",}`, is malformed JSON). -/
def resp504 : HttpResponse :=
  { statusCode := 504
    status := "504 Gateway Timeout"
    headers := []
    body := Except.error "unexpected end of JSON input" }

/-- The 429 response of `TestExecWhenApiReturnsRateLimitingDetails` and
`TestApiMetric`, rate-limit headers included. -/
def resp429 : HttpResponse :=
  { statusCode := 429
    status := "429 Too Many Requests"
    headers := [("X-RateLimit-State", "THROTTLED"),
      ("X-RateLimit-Reason", "ACCOUNT"),
      ("X-RateLimit-Period-In-Sec", "60")]
    body := Except.ok [("message", Jval.str "TooManyRequests"),
      ("took", Jval.num 1), ("requestId", Jval.str "rId")] }

/-- The 422 response of `TestExecWhenApiReturns422`. -/
def resp422 : HttpResponse :=
  { statusCode := 422
    status := "422 Unprocessable Entity"
    headers := []
    body := Except.ok [
      ("message", Jval.str "Request body is not processable. Please check the errors."),
      ("errors", Jval.obj [("recipients#type", Jval.str "Invalid recipient type \x27bb\x27")]),
      ("took", Jval.num 0.083), ("requestId", Jval.str "Id")] }

/-- The empty-body 200 response of `TestParsingErrorExec`: the body is not
valid JSON, with the cause reported by the decoder. -/
def respEmptyBody : HttpResponse :=
  { statusCode := 200
    status := "200 OK"
    headers := []
    body := Except.error "unexpected end of JSON input" }

/-- The three teams served by `TestParsingWithDataField`. -/
def testTeams : List Team :=
  [{ Id := "1", Name := "n1", Description := "d1" },
   { Id := "2", Name := "n2", Description := "d2" },
   { Id := "3", Name := "n3", Description := "d3" }]

/-- The 200 response of `TestParsingWithDataField`: a `data` array of three
teams, `took` 1.08, `requestId` "123". -/
def respTeams : HttpResponse :=
  { statusCode := 200
    status := "200 OK"
    headers := []
    body := Except.ok [("data", Jval.arr (testTeams.map Team.toJval)),
      ("took", Jval.num 1.08), ("requestId", Jval.str "123")] }

/-- The 200 response of `TestParsingWhenApiDoesNotReturnDataField`: no
`data` member, a top-level `result` key. -/
def respResultOnly : HttpResponse :=
  { statusCode := 200
    status := "200 OK"
    headers := []
    body := Except.ok [("result", Jval.str "processed"),
      ("requestId", Jval.str "123"), ("took", Jval.num 0.1)] }

/-- A 2xx status never triggers a retry. -/
theorem isRetryStatus_eq_false_of_le {code : Nat} (h : code ≤ 299) :
    isRetryStatus code = false := by
  simp only [isRetryStatus, Bool.or_eq_false_iff, Bool.and_eq_false_iff,
    beq_eq_false_iff_ne, ne_eq, decide_eq_false_iff_not, not_le]
  omega

/-- When the first attempt does not trigger a retry, the loop stops after
one attempt with a zero retry counter, whatever the configured budget. -/
theorem attemptLoop_no_retry (server : Nat → Option HttpResponse)
    (h : shouldRetry (server 0) = false) (fuel : Nat) :
    attemptLoop server fuel 0 0 = (server 0, 1, 0) := by
  cases fuel <;> simp [attemptLoop, h]

/-- When every attempt triggers a retry, the loop exhausts the whole
budget: `fuel + 1` attempts from start index `i`, and the retry counter
grows by `fuel + 1`. -/
theorem attemptLoop_always_retry (server : Nat → Option HttpResponse)
    (h : ∀ i, shouldRetry (server i) = true) :
    ∀ fuel i cnt,
      attemptLoop server fuel i cnt =
        (server (i + fuel), i + fuel + 1, cnt + fuel + 1) := by
  intro fuel
  induction fuel with
  | zero => intro i cnt; simp [attemptLoop, h i]
  | succ f ih =>
      intro i cnt
      have h1 : i + 1 + f = i + (f + 1) := by omega
      have h2 : cnt + 1 + f = cnt + (f + 1) := by omega
      simp only [attemptLoop, h i, if_true]
      rw [ih, h1, h2]

/-- Substring fact, kept composable: a witness inside `y` lifts over a
prefix `x`. -/
theorem sub_append_left (x : String) {y sub : String}
    (h : ∃ a c, y = a ++ sub ++ c) : ∃ a c, x ++ y = a ++ sub ++ c := by
  obtain ⟨a, c, rfl⟩ := h
  exact ⟨x ++ a, c, by simp [String.append_assoc]⟩

/-- Substring fact: a witness inside `x` lifts over a suffix `y`. -/
theorem sub_append_right (y : String) {x sub : String}
    (h : ∃ a c, x = a ++ sub ++ c) : ∃ a c, x ++ y = a ++ sub ++ c := by
  obtain ⟨a, c, rfl⟩ := h
  exact ⟨a, c ++ y, by simp [String.append_assoc]⟩

/-- Every entry's message occurs inside the rendered `errors` detail. -/
theorem errorsDetail_mem {errs : List (String × String)} {k v : String}
    (h : (k, v) ∈ errs) : ∃ a c, errorsDetail errs = a ++ v ++ c := by
  induction errs with
  | nil => cases h
  | cons kv rest ih =>
      rcases List.mem_cons.mp h with heq | hmem
      · refine ⟨kv.1 ++ ": ", ", " ++ errorsDetail rest, ?_⟩
        have hv : kv.2 = v := by rw [← heq]
        simp [errorsDetail, hv, String.append_assoc]
      · obtain ⟨a, c, hac⟩ := ih hmem
        refine ⟨kv.1 ++ ": " ++ kv.2 ++ ", " ++ a, c, ?_⟩
        simp [errorsDetail, hac, String.append_assoc]

/-- Filtering out the reserved envelope keys does not change the lookup of
a non-reserved key. -/
theorem lookup_filter_not_reserved (body : JObj) (k : String)
    (hk : reservedKeys.contains k = false) :
    (body.filter fun kv => !(reservedKeys.contains kv.1)).lookup k =
      body.lookup k := by
  have hk' : k ∉ reservedKeys := by simpa using hk
  induction body with
  | nil => rfl
  | cons kv rest ih =>
      by_cases hres : kv.1 ∈ reservedKeys
      · have hne : (k == kv.1) = false := by
          refine beq_eq_false_iff_ne.mpr ?_
          intro hkk
          exact hk' (hkk ▸ hres)
        simp [List.filter_cons, hres, List.lookup, hne]
        simpa using ih
      · by_cases hkk : k = kv.1
        · simp [List.filter_cons, hres, List.lookup, hkk]
        · have hne : (k == kv.1) = false := beq_eq_false_iff_ne.mpr hkk
          simp [List.filter_cons, hres, List.lookup, hne]
          simpa using ih

/-- The decimal rendering of the status code 422. -/
theorem toString_422 : toString (422 : Nat) = "422" := by
  decide

/-- C1: For every request whose self-validation fails, Execute returns
exactly that validation error, performs zero HTTP calls, and publishes an
SdkMetric whose errorType is "request-validation-error" and whose
errorMessage equals the validation error text. -/
theorem exec_validation_failure (cfg : Config) (req : ApiRequest) (hd : Bool)
    (server : Nat → Option HttpResponse) (msg : String)
    (h : req.validationError = some msg) :
    (Exec cfg req hd server).error = some msg ∧
    (Exec cfg req hd server).attempts = 0 ∧
    (Exec cfg req hd server).sdkMetric =
      { ResourcePath := req.ResourcePath
        ErrorType := "request-validation-error"
        ErrorMessage := msg } := by
  simp [Exec, h]

/-- Witness for C1: the test's invalid request (empty mandatory field)
against the team-serving test double. -/
theorem exec_validation_failure_witness :
    (Exec cfgKey1
        (testRequest.toApi { MandatoryField := "", ExtraField := "extra" })
        false (fun _ => some respTeams)).error =
      some "mandatory field cannot be empty" ∧
    (Exec cfgKey1
        (testRequest.toApi { MandatoryField := "", ExtraField := "extra" })
        false (fun _ => some respTeams)).attempts = 0 ∧
    (Exec cfgKey1
        (testRequest.toApi { MandatoryField := "", ExtraField := "extra" })
        false (fun _ => some respTeams)).sdkMetric =
      { ResourcePath := "/an-enpoint"
        ErrorType := "request-validation-error"
        ErrorMessage := "mandatory field cannot be empty" } :=
  exec_validation_failure cfgKey1
    (testRequest.toApi { MandatoryField := "", ExtraField := "extra" })
    false (fun _ => some respTeams) "mandatory field cannot be empty" rfl

/-- C8: Construction with a blank API key deterministically returns the
configuration error "API key cannot be blank"; with a non-blank key it
succeeds with a nil error. -/
theorem newOpsGenieClient_blank_key (cfg : Config) :
    (cfg.ApiKey = "" →
      NewOpsGenieClient cfg = Except.error "API key cannot be blank") ∧
    (cfg.ApiKey ≠ "" →
      NewOpsGenieClient cfg = Except.ok { config := cfg }) := by
  constructor
  · intro h
    simp [NewOpsGenieClient, h]
  · intro h
    simp [NewOpsGenieClient, h]

/-- Witness for C8 at the configurations of `TestParsingWithDataField`. -/
theorem newOpsGenieClient_blank_key_witness :
    NewOpsGenieClient { ApiKey := "", RetryCount := 0 } =
      Except.error "API key cannot be blank" ∧
    NewOpsGenieClient cfgKey1 = Except.ok { config := cfgKey1 } :=
  ⟨(newOpsGenieClient_blank_key { ApiKey := "", RetryCount := 0 }).1 rfl,
   (newOpsGenieClient_blank_key cfgKey1).2 (by decide)⟩

/-- C2 (amended): for every configured retry count N and a server that
returns a 5xx status on every attempt, Execute makes exactly N+1 total
attempts and the final published HttpMetric's retry count equals N+1 (the
total attempt count) — not N as the claim states; pinned by
`TestHttpMetricWhenRequestRetried`, which asserts RetryCount 2 with a
configured retry count of 1. -/
theorem exec_always_5xx_retries (cfg : Config) (req : ApiRequest) (hd : Bool)
    (server : Nat → Option HttpResponse)
    (hv : req.validationError = none)
    (h5 : ∀ i, ∃ r, server i = some r ∧ 500 ≤ r.statusCode ∧ r.statusCode ≤ 599) :
    (Exec cfg req hd server).attempts = cfg.RetryCount + 1 ∧
    (Exec cfg req hd server).httpMetric.map HttpMetric.RetryCount =
      some (cfg.RetryCount + 1) ∧
    (Exec cfg req hd server).error.isSome = true := by
  have hr : ∀ i, shouldRetry (server i) = true := by
    intro i
    obtain ⟨r, hri, h5a, h5b⟩ := h5 i
    simp only [shouldRetry, hri, isRetryStatus]
    simp only [Bool.or_eq_true, beq_iff_eq, Bool.and_eq_true, decide_eq_true_eq]
    omega
  obtain ⟨r, hrN, h5a, h5b⟩ := h5 cfg.RetryCount
  have hloop := attemptLoop_always_retry server hr cfg.RetryCount 0 0
  rw [Nat.zero_add] at hloop
  have hnot2xx : ¬(200 ≤ r.statusCode ∧ r.statusCode ≤ 299) := by omega
  simp [Exec, hv, hloop, hrN, hnot2xx]

/-- Witness for C2's amended theorem: retry count 1 against the persistent
504 of `TestHttpMetricWhenRequestRetried` gives 2 attempts and a published
retry count of 2. -/
theorem exec_always_5xx_retries_witness :
    (Exec cfgKey1 reqValidApi false (fun _ => some resp504)).attempts = 2 ∧
    (Exec cfgKey1 reqValidApi false (fun _ => some resp504)).httpMetric.map
      HttpMetric.RetryCount = some 2 ∧
    (Exec cfgKey1 reqValidApi false (fun _ => some resp504)).error.isSome = true :=
  exec_always_5xx_retries cfgKey1 reqValidApi false (fun _ => some resp504) rfl
    (fun _ => ⟨resp504, rfl, by decide, by decide⟩)

/-- C2 counterexample: with RetryCount = 1 against a persistent 504, the
final published HttpMetric's retry count is 2, not the configured 1 that
the claim asserts. -/
theorem exec_retry_metric_counterexample :
    (Exec cfgKey1 reqValidApi false (fun _ => some resp504)).attempts = 2 ∧
    (Exec cfgKey1 reqValidApi false (fun _ => some resp504)).httpMetric.map
      HttpMetric.RetryCount = some 2 ∧
    (Exec cfgKey1 reqValidApi false (fun _ => some resp504)).httpMetric.map
      HttpMetric.RetryCount ≠ some cfgKey1.RetryCount := by
  refine ⟨rfl, rfl, ?_⟩
  decide

/-- C10: when a call ends in an HTTP-level error after retries are
exhausted, Execute returns a non-nil error while the published HttpMetric
carries a nil Error field (`TestHttpMetricWhenRequestRetried` asserts
`httpMetric.Error` is nil even though `err` is non-nil). -/
theorem exec_http_error_metric_error_nil (cfg : Config) (req : ApiRequest)
    (hd : Bool) (server : Nat → Option HttpResponse)
    (hv : req.validationError = none)
    (h5 : ∀ i, ∃ r, server i = some r ∧ 500 ≤ r.statusCode ∧ r.statusCode ≤ 599) :
    (Exec cfg req hd server).error.isSome = true ∧
    (Exec cfg req hd server).httpMetric.map HttpMetric.Error = some none := by
  have hr : ∀ i, shouldRetry (server i) = true := by
    intro i
    obtain ⟨r, hri, h5a, h5b⟩ := h5 i
    simp only [shouldRetry, hri, isRetryStatus]
    simp only [Bool.or_eq_true, beq_iff_eq, Bool.and_eq_true, decide_eq_true_eq]
    omega
  obtain ⟨r, hrN, h5a, h5b⟩ := h5 cfg.RetryCount
  have hloop := attemptLoop_always_retry server hr cfg.RetryCount 0 0
  rw [Nat.zero_add] at hloop
  have hnot2xx : ¬(200 ≤ r.statusCode ∧ r.statusCode ≤ 299) := by omega
  simp [Exec, hv, hloop, hrN, hnot2xx]

/-- Witness for C10 at the persistent 504 of
`TestHttpMetricWhenRequestRetried`. -/
theorem exec_http_error_metric_error_nil_witness :
    (Exec cfgKey1 reqValidApi false (fun _ => some resp504)).error.isSome = true ∧
    (Exec cfgKey1 reqValidApi false (fun _ => some resp504)).httpMetric.map
      HttpMetric.Error = some none :=
  exec_http_error_metric_error_nil cfgKey1 reqValidApi false
    (fun _ => some resp504) rfl (fun _ => ⟨resp504, rfl, by decide, by decide⟩)

/-- C4: for every 429 response carrying the three rate-limit headers, after
Execute returns (with a non-nil error) the caller's ResultMetadata
rate-limit state, reason and period fields equal those header values. -/
theorem exec_429_rate_limit (cfg : Config) (req : ApiRequest) (hd : Bool)
    (resp : HttpResponse) (st rs pd : String)
    (hv : req.validationError = none)
    (hcode : resp.statusCode = 429)
    (hst : resp.headers.lookup "X-RateLimit-State" = some st)
    (hrs : resp.headers.lookup "X-RateLimit-Reason" = some rs)
    (hpd : resp.headers.lookup "X-RateLimit-Period-In-Sec" = some pd) :
    (Exec cfg req hd (fun _ => some resp)).result.metadata.RateLimitState = st ∧
    (Exec cfg req hd (fun _ => some resp)).result.metadata.RateLimitReason = rs ∧
    (Exec cfg req hd (fun _ => some resp)).result.metadata.RateLimitPeriod = pd ∧
    (Exec cfg req hd (fun _ => some resp)).error.isSome = true := by
  have hr : shouldRetry (some resp) = true := by
    simp [shouldRetry, isRetryStatus, hcode]
  have hloop := attemptLoop_always_retry (fun _ => some resp) (fun _ => hr)
    cfg.RetryCount 0 0
  rw [Nat.zero_add] at hloop
  have hnot2xx : ¬(200 ≤ resp.statusCode ∧ resp.statusCode ≤ 299) := by omega
  simp [Exec, hv, hloop, hnot2xx, metadataOf, headerValue, hst, hrs, hpd]

/-- Witness for C4 at the throttled 429 response of
`TestExecWhenApiReturnsRateLimitingDetails`. -/
theorem exec_429_rate_limit_witness :
    (Exec cfgKey1 reqValidApi false
      (fun _ => some resp429)).result.metadata.RateLimitState = "THROTTLED" ∧
    (Exec cfgKey1 reqValidApi false
      (fun _ => some resp429)).result.metadata.RateLimitReason = "ACCOUNT" ∧
    (Exec cfgKey1 reqValidApi false
      (fun _ => some resp429)).result.metadata.RateLimitPeriod = "60" ∧
    (Exec cfgKey1 reqValidApi false (fun _ => some resp429)).error.isSome = true :=
  exec_429_rate_limit cfgKey1 reqValidApi false resp429
    "THROTTLED" "ACCOUNT" "60" rfl rfl rfl rfl rfl

/-- C3: for every successful response whose body carries a `data` array,
decoding into a Result type that declares a data-receiving field hands
that field exactly the response's array, in response order. -/
theorem exec_data_array_decode (cfg : Config) (req : ApiRequest)
    (server : Nat → Option HttpResponse) (resp : HttpResponse) (body : JObj)
    (xs : List Jval)
    (hv : req.validationError = none)
    (h0 : server 0 = some resp)
    (h2 : 200 ≤ resp.statusCode ∧ resp.statusCode ≤ 299)
    (hbody : resp.body = Except.ok body)
    (hdata : body.lookup "data" = some (Jval.arr xs)) :
    (Exec cfg req true server).error = none ∧
    (Exec cfg req true server).result.fields = [("data", Jval.arr xs)] := by
  have hsr : shouldRetry (server 0) = false := by
    simp [h0, shouldRetry, isRetryStatus_eq_false_of_le h2.2]
  have hloop := attemptLoop_no_retry server hsr cfg.RetryCount
  simp [Exec, hv, hloop, h0, h2.1, h2.2, hbody, resultFields, hdata]

/-- Witness for C3: the three-team `data` array of
`TestParsingWithDataField`. -/
theorem exec_data_array_decode_witness :
    (Exec cfgKey1 reqValidApi true (fun _ => some respTeams)).error = none ∧
    (Exec cfgKey1 reqValidApi true (fun _ => some respTeams)).result.fields =
      [("data", Jval.arr (testTeams.map Team.toJval))] :=
  exec_data_array_decode cfgKey1 reqValidApi (fun _ => some respTeams)
    respTeams _ (testTeams.map Team.toJval) rfl rfl (by decide) rfl rfl

/-- Decoding inverts encoding on team lists: a `data` array built from
teams round-trips element-by-element, in order. -/
theorem teams_roundtrip (ts : List Team) :
    (ts.map Team.toJval).map Team.ofJval = ts := by
  induction ts with
  | nil => rfl
  | cons t rest ih =>
      have ht : Team.ofJval (Team.toJval t) = t := rfl
      simp [ht, ih]

/-- C5 (amended): for every successful response whose body has no `data`
member, decoded into a Result type that declares no data-receiving field,
the top-level body keys beyond the envelope's reserved keys are mapped
onto the Result's non-metadata fields by name, and ResultMetadata is
populated from the body's requestId and took values. -/
theorem exec_no_data_mapping (cfg : Config) (req : ApiRequest)
    (server : Nat → Option HttpResponse) (resp : HttpResponse) (body : JObj)
    (hv : req.validationError = none)
    (h0 : server 0 = some resp)
    (h2 : 200 ≤ resp.statusCode ∧ resp.statusCode ≤ 299)
    (hbody : resp.body = Except.ok body)
    (hnodata : body.lookup "data" = none) :
    (Exec cfg req false server).error = none ∧
    (∀ k, reservedKeys.contains k = false →
      (Exec cfg req false server).result.fields.lookup k = body.lookup k) ∧
    (Exec cfg req false server).result.metadata.RequestId =
      lookupStr body "requestId" ∧
    (Exec cfg req false server).result.metadata.ResponseTime =
      lookupNum body "took" := by
  have hsr : shouldRetry (server 0) = false := by
    simp [h0, shouldRetry, isRetryStatus_eq_false_of_le h2.2]
  have hloop := attemptLoop_no_retry server hsr cfg.RetryCount
  have hfields : (Exec cfg req false server).result.fields =
      body.filter fun kv => !(reservedKeys.contains kv.1) := by
    simp [Exec, hv, hloop, h0, h2.1, h2.2, hbody, resultFields, hnodata]
  refine ⟨?_, ?_, ?_, ?_⟩
  · simp [Exec, hv, hloop, h0, h2.1, h2.2, hbody]
  · intro k hk
    rw [hfields, lookup_filter_not_reserved body k hk]
  · simp [Exec, hv, hloop, h0, h2.1, h2.2, hbody, metadataOf]
  · simp [Exec, hv, hloop, h0, h2.1, h2.2, hbody, metadataOf]

/-- Witness for C5's amended theorem at the data-less response of
`TestParsingWhenApiDoesNotReturnDataField`: the `result` key reaches the
`Result` field, and the metadata carries requestId "123" and took 0.1. -/
theorem exec_no_data_mapping_witness :
    (Exec cfgKey1 reqValidApi false (fun _ => some respResultOnly)).error = none ∧
    (Exec cfgKey1 reqValidApi false
      (fun _ => some respResultOnly)).result.fields.lookup "result" =
      some (Jval.str "processed") ∧
    (Exec cfgKey1 reqValidApi false
      (fun _ => some respResultOnly)).result.metadata.RequestId = "123" ∧
    (Exec cfgKey1 reqValidApi false
      (fun _ => some respResultOnly)).result.metadata.ResponseTime = 0.1 := by
  have h := exec_no_data_mapping cfgKey1 reqValidApi (fun _ => some respResultOnly)
    respResultOnly _ rfl rfl (by decide) rfl rfl
  exact ⟨h.1, (h.2.1 "result" (by decide)).trans rfl,
    h.2.2.1.trans rfl, h.2.2.2.trans rfl⟩

/-- The body of the C5 counterexample: an object-shaped `data` member plus
an extra non-reserved top-level key `result`. -/
def bodyDataAndExtra : JObj :=
  [("data", Jval.obj [("offset", Jval.str "123")]),
   ("result", Jval.str "processed"),
   ("took", Jval.num 1), ("requestId", Jval.str "123")]

/-- A 200 response carrying `bodyDataAndExtra`. -/
def respDataAndExtra : HttpResponse :=
  { statusCode := 200
    status := "200 OK"
    headers := []
    body := Except.ok bodyDataAndExtra }

/-- C5 counterexample: when the body carries an object-shaped `data`
member, the decoder routes the `data` object's sub-fields to the Result
and ignores the extra non-reserved top-level key `result`, so that key is
not mapped onto the Result's field as the claim asserts. -/
theorem exec_no_data_mapping_counterexample :
    bodyDataAndExtra.lookup "result" = some (Jval.str "processed") ∧
    reservedKeys.contains "result" = false ∧
    (Exec cfgKey1 reqValidApi false
      (fun _ => some respDataAndExtra)).result.fields.lookup "result" = none ∧
    (none : Option Jval) ≠ some (Jval.str "processed") := by
  refine ⟨rfl, rfl, rfl, ?_⟩
  simp

/-- C6 (amended): a malformed success-path body yields the decode error
"Response could not be parsed, <cause>" (comma, as pinned by
`TestParsingErrorExec`), and the call is not retried: exactly one attempt
regardless of the configured retry count. -/
theorem exec_parse_error (cfg : Config) (req : ApiRequest) (hd : Bool)
    (server : Nat → Option HttpResponse) (resp : HttpResponse) (cause : String)
    (hv : req.validationError = none)
    (h0 : server 0 = some resp)
    (h2 : 200 ≤ resp.statusCode ∧ resp.statusCode ≤ 299)
    (hbody : resp.body = Except.error cause) :
    (Exec cfg req hd server).error =
      some ("Response could not be parsed, " ++ cause) ∧
    (Exec cfg req hd server).attempts = 1 := by
  have hsr : shouldRetry (server 0) = false := by
    simp [h0, shouldRetry, isRetryStatus_eq_false_of_le h2.2]
  have hloop := attemptLoop_no_retry server hsr cfg.RetryCount
  simp [Exec, hv, hloop, h0, h2.1, h2.2, hbody]

/-- Witness for C6's amended theorem at the empty-body 200 of
`TestParsingErrorExec`. -/
theorem exec_parse_error_witness :
    (Exec cfgKey1 reqValidApi false (fun _ => some respEmptyBody)).error =
      some "Response could not be parsed, unexpected end of JSON input" ∧
    (Exec cfgKey1 reqValidApi false (fun _ => some respEmptyBody)).attempts = 1 :=
  exec_parse_error cfgKey1 reqValidApi false (fun _ => some respEmptyBody)
    respEmptyBody "unexpected end of JSON input" rfl rfl (by decide) rfl

/-- C6 counterexample: the decode error the pipeline actually returns is
"Response could not be parsed, unexpected end of JSON input", which is not
of the claim's form "Response could not be parsed: <cause>" for any
cause. -/
theorem exec_parse_error_counterexample :
    (Exec cfgKey1 reqValidApi false (fun _ => some respEmptyBody)).error =
      some "Response could not be parsed, unexpected end of JSON input" ∧
    ¬ ∃ cause : String,
        "Response could not be parsed, unexpected end of JSON input" =
          "Response could not be parsed: " ++ cause := by
  constructor
  · rfl
  · rintro ⟨cause, hc⟩
    have hdata : ("Response could not be parsed, unexpected end of JSON input").data =
        ("Response could not be parsed: ").data ++ cause.data := by
      have h := congrArg String.data hc
      rwa [String.data_append] at h
    have hlen : ("Response could not be parsed: ").data.length = 30 := by decide
    have htake : ("Response could not be parsed, unexpected end of JSON input").data.take 30 =
        ("Response could not be parsed: ").data := by
      rw [hdata, ← hlen, List.take_left]
    have hne : ("Response could not be parsed, unexpected end of JSON input").data.take 30 ≠
        ("Response could not be parsed: ").data := by decide
    exact hne htake

/-- C7: for every 422 response carrying a field-level errors map, Execute
returns a terminal (single-attempt, regardless of the configured retry
count) error whose text contains the status code 422 and the field-level
error detail from the errors map. -/
theorem exec_422_field_detail (cfg : Config) (req : ApiRequest) (hd : Bool)
    (resp : HttpResponse) (body : JObj) (k v : String)
    (hv : req.validationError = none)
    (hcode : resp.statusCode = 422)
    (hbody : resp.body = Except.ok body)
    (hkv : (k, v) ∈ lookupErrors body) :
    (Exec cfg req hd (fun _ => some resp)).attempts = 1 ∧
    ∃ e, (Exec cfg req hd (fun _ => some resp)).error = some e ∧
      (∃ a c, e = a ++ "422" ++ c) ∧ (∃ a c, e = a ++ v ++ c) := by
  have hsr : shouldRetry (some resp) = false := by
    simp [shouldRetry, isRetryStatus, hcode]
  have hloop := attemptLoop_no_retry (fun _ => some resp) hsr cfg.RetryCount
  have hnot2xx : ¬(200 ≤ resp.statusCode ∧ resp.statusCode ≤ 299) := by omega
  have hne : (lookupErrors body).isEmpty = false := by
    cases hl : lookupErrors body with
    | nil => rw [hl] at hkv; cases hkv
    | cons a l => simp
  have he : apiErrorText 422 body =
      (("Error occurred with Status code: " ++ toString 422 ++ ", Message: " ++
        lookupStr body "message" ++ ", RequestId: " ++ lookupStr body "requestId") ++
        ", Error detail: ") ++ errorsDetail (lookupErrors body) := by
    simp [apiErrorText, hne]
  have herr : (Exec cfg req hd (fun _ => some resp)).error =
      some (apiErrorText 422 body) := by
    simp [Exec, hv, hloop, hnot2xx, hbody, hcode]
  have hatt : (Exec cfg req hd (fun _ => some resp)).attempts = 1 := by
    simp [Exec, hv, hloop, hnot2xx, hbody]
  refine ⟨hatt, apiErrorText 422 body, herr, ?_, ?_⟩
  · rw [he]
    refine sub_append_right _ ?_
    refine sub_append_right _ ?_
    refine sub_append_right _ ?_
    refine sub_append_right _ ?_
    refine sub_append_right _ ?_
    refine sub_append_right _ ?_
    exact ⟨ "Error occurred with Status code: ", "",
      by rw [toString_422, String.append_empty]⟩
  · rw [he]
    exact sub_append_left _ (errorsDetail_mem hkv)

/-- Witness for C7 at the 422 response of `TestExecWhenApiReturns422`. -/
theorem exec_422_field_detail_witness :
    (Exec cfgKey1 reqValidApi false (fun _ => some resp422)).attempts = 1 ∧
    ∃ e, (Exec cfgKey1 reqValidApi false (fun _ => some resp422)).error = some e ∧
      (∃ a c, e = a ++ "422" ++ c) ∧
      (∃ a c, e = a ++ "Invalid recipient type \x27bb\x27" ++ c) :=
  exec_422_field_detail cfgKey1 reqValidApi false resp422 _
    "recipients#type" "Invalid recipient type \x27bb\x27"
    rfl rfl rfl (by decide)

/-- The subscriber list accumulated by a registration sequence, relative
to an arbitrary starting bus. -/
theorem registerAll_go (σ : Type) (regs : List (σ × String))
    (p : MetricPublisher σ) (c : String) :
    (regs.foldl (fun p r => p.register r.1 r.2) p).SubscriberMap c =
      p.SubscriberMap c ++ (regs.filter fun r => r.2 == c).map Prod.fst := by
  induction regs generalizing p with
  | nil => simp
  | cons r rest ih =>
      simp only [List.foldl_cons, List.filter_cons]
      by_cases hc : r.2 = c
      · rw [ih]
        simp [MetricPublisher.register, hc]
      · rw [ih]
        have hcb : (r.2 == c) = false := beq_eq_false_iff_ne.mpr hc
        have hcs : ¬(c = r.2) := fun h => hc h.symm
        simp [MetricPublisher.register, hcb, hcs]

/-- C9: after any sequence of registrations, each category's subscriber
list is exactly the subscribers registered for that category in
registration order (duplicates allowed, the same subscriber may appear
under several categories), and a subscriber registered only for one
category is never reached by a publication to any other category. -/
theorem metricPublisher_registration (σ : Type) (regs : List (σ × String)) :
    (∀ c, (registerAll σ regs).SubscriberMap c =
      (regs.filter fun r => r.2 == c).map Prod.fst) ∧
    (∀ (s : σ) (cat : String), (∀ r ∈ regs, r.1 = s → r.2 = cat) →
      ∀ c, c ≠ cat → s ∉ publishTargets (registerAll σ regs) c) := by
  have h1 : ∀ c, (registerAll σ regs).SubscriberMap c =
      (regs.filter fun r => r.2 == c).map Prod.fst := by
    intro c
    rw [registerAll, registerAll_go]
    simp [MetricPublisher.empty]
  refine ⟨h1, ?_⟩
  intro s cat hs c hc hmem
  rw [publishTargets, h1 c] at hmem
  obtain ⟨r, hr, hrs⟩ := List.mem_map.mp hmem
  have hrf := List.mem_filter.mp hr
  have hr2 : r.2 = c := by simpa using hrf.2
  refine hc ?_
  rw [← hr2]
  exact hs r hrf.1 hrs

/-- Witness for C9, mirroring `TestSubscription`: subscriber 1 registered
under http, sdk and api, subscriber 2 under http only, and a subscriber 9
registered only under api is never reached by an http publication. -/
theorem metricPublisher_registration_witness :
    (registerAll Nat [(1, HTTP), (1, SDK), (1, API), (2, HTTP)]).SubscriberMap
      HTTP = [1, 2] ∧
    (registerAll Nat [(1, HTTP), (1, SDK), (1, API), (2, HTTP)]).SubscriberMap
      SDK = [1] ∧
    (registerAll Nat [(9, API), (2, HTTP)]).SubscriberMap API = [9] ∧
    9 ∉ publishTargets (registerAll Nat [(9, API), (2, HTTP)]) HTTP := by
  refine ⟨?_, ?_, ?_, ?_⟩
  · rw [(metricPublisher_registration Nat
      [(1, HTTP), (1, SDK), (1, API), (2, HTTP)]).1 HTTP]
    decide
  · rw [(metricPublisher_registration Nat
      [(1, HTTP), (1, SDK), (1, API), (2, HTTP)]).1 SDK]
    decide
  · rw [(metricPublisher_registration Nat [(9, API), (2, HTTP)]).1 API]
    decide
  · exact (metricPublisher_registration Nat [(9, API), (2, HTTP)]).2 9 API
      (by decide) HTTP (by decide)

end OpsgenieSdk
